import Mathlib

/-!
Verification of `src/live_vlm_webui/webhook_config.py`: a loader that reads
webhook settings from environment variables into a `WebhookConfig` record.

The environment is modelled as a lookup `String → Option String` (the spec
itself suggests abstracting the process environment as an injected read-only
key→string lookup).  Python string operations (`strip`, `lower`), `float(...)`
and `int(...)` parsing are embedded over `List Char` / `String`.  Python
floats are modelled by `PyFloat`: NaN, the two infinities, and finite values
as exact decimals `n * 10 ^ e` in canonical form (decimal literals are kept
exact; rounding to binary is immaterial to the claims checked here, while
the special values NaN/inf are material and modelled precisely, including
NaN being incomparable with 0).
The `logger.warning` side effect is modelled as a list of emitted messages
returned alongside the record.
-/

/-- Python whitespace characters relevant to `str.strip()` (ASCII model). -/
def isPyWhitespace (c : Char) : Bool :=
  c == ' ' || c == '\t' || c == '\n' || c == '\r' || c == '\x0b' || c == '\x0c'

/-- `str.strip()` on a character list: drop whitespace at both ends. -/
def pyStripList (cs : List Char) : List Char :=
  ((cs.dropWhile isPyWhitespace).reverse.dropWhile isPyWhitespace).reverse

/-- `str.strip()`. -/
def pyStrip (s : String) : String :=
  String.mk (pyStripList s.data)

/-- `str.lower()` on one character (ASCII model). -/
def pyLowerChar (c : Char) : Char :=
  if 'A' ≤ c ∧ c ≤ 'Z' then Char.ofNat (c.toNat + 32) else c

/-- `str.lower()`. -/
def pyLower (s : String) : String :=
  String.mk (s.data.map pyLowerChar)

/-- Python float values: NaN, ±infinity, or a finite value.  A finite value
`finite n e` denotes the exact decimal `n * 10 ^ e`; the smart constructor
`mkDecimal` keeps it canonical (zero is `finite 0 0`, otherwise `n` is not
divisible by ten), so structural equality coincides with value equality. -/
inductive PyFloat where
  | nan : PyFloat
  | inf : PyFloat
  | ninf : PyFloat
  | finite (n : ℤ) (e : ℤ) : PyFloat
deriving DecidableEq, Repr

/-- Divide out factors of ten: `stripTens fuel n e` divides `n` by ten while
it is a positive multiple of ten, raising `e` accordingly.  `fuel ≥ n` makes
the recursion structural while never cutting the loop short. -/
def stripTens : ℕ → ℕ → ℤ → ℕ × ℤ
  | 0, n, e => (n, e)
  | fuel + 1, n, e =>
    if n % 10 = 0 ∧ n ≠ 0 then stripTens fuel (n / 10) (e + 1) else (n, e)

/-- Build a canonical finite float denoting `n * 10 ^ e`. -/
def mkDecimal (n : ℤ) (e : ℤ) : PyFloat :=
  if n = 0 then PyFloat.finite 0 0
  else
    let p := stripTens n.natAbs n.natAbs e
    PyFloat.finite (if n < 0 then -(p.1 : ℤ) else (p.1 : ℤ)) p.2

/-- The rational denoted by the decimal `n * 10 ^ e`. -/
def decimalToRat (n e : ℤ) : ℚ :=
  if 0 ≤ e then (n : ℚ) * (10 : ℚ) ^ e.toNat else (n : ℚ) / (10 : ℚ) ^ (-e).toNat

/-- The Python comparison `x <= 0` on a float: False for NaN and +inf.  The
sign of a finite decimal `n * 10 ^ e` is the sign of `n`. -/
def pyFloatLeZero : PyFloat → Bool
  | PyFloat.nan => false
  | PyFloat.inf => false
  | PyFloat.ninf => true
  | PyFloat.finite n _ => decide (n ≤ 0)

/-- The Python comparison `x > 0` on a float: False for NaN and -inf. -/
def pyFloatGtZero : PyFloat → Bool
  | PyFloat.nan => false
  | PyFloat.inf => true
  | PyFloat.ninf => false
  | PyFloat.finite n _ => decide (0 < n)

/-- Consume a CPython digit group: digits already begun with `acc`, with
single underscores allowed between digits.  Returns the collected digits
(underscores removed) and the unconsumed rest. -/
def digitGroupGo (acc : List Char) : List Char → List Char × List Char
  | [] => (acc, [])
  | '_' :: rest =>
    match rest with
    | d :: r => if d.isDigit then digitGroupGo (acc ++ [d]) r else (acc, '_' :: rest)
    | [] => (acc, ['_'])
  | c :: rest => if c.isDigit then digitGroupGo (acc ++ [c]) rest else (acc, c :: rest)

/-- Parse a CPython digit group (`digit (["_"] digit)*`): fails unless the
input starts with a digit. -/
def parseDigitGroup : List Char → Option (List Char × List Char)
  | [] => none
  | c :: rest => if c.isDigit then some (digitGroupGo [c] rest) else none

/-- Decimal digits to a natural number. -/
def digitsToNat (ds : List Char) : Nat :=
  ds.foldl (fun n c => 10 * n + (c.toNat - 48)) 0

/-- Parse the mantissa of a float literal: `digits ["." [digits]]` or
`"." digits`.  Yields the digit string read as a natural number, the number
of fractional digits, and the unconsumed rest: the mantissa's value is
`n / 10 ^ k`. -/
def parseMantissa (cs : List Char) : Option (ℕ × ℕ × List Char) :=
  match parseDigitGroup cs with
  | some (ds, rest) =>
    match rest with
    | '.' :: r2 =>
      match parseDigitGroup r2 with
      | some (fs, r3) => some (digitsToNat (ds ++ fs), fs.length, r3)
      | none => some (digitsToNat ds, 0, r2)
    | _ => some (digitsToNat ds, 0, rest)
  | none =>
    match cs with
    | '.' :: r2 =>
      match parseDigitGroup r2 with
      | some (fs, r3) => some (digitsToNat fs, fs.length, r3)
      | none => none
    | _ => none

/-- Parse what may follow the mantissa: either nothing, or a complete
exponent `("e"|"E") [sign] digits` consuming the whole rest. -/
def parseExpPart : List Char → Option ℤ
  | [] => some 0
  | c :: rest =>
    if c = 'e' ∨ c = 'E' then
      match rest with
      | '+' :: r2 =>
        match parseDigitGroup r2 with
        | some (ds, []) => some (digitsToNat ds : ℤ)
        | _ => none
      | '-' :: r2 =>
        match parseDigitGroup r2 with
        | some (ds, []) => some (-(digitsToNat ds : ℤ))
        | _ => none
      | r =>
        match parseDigitGroup r with
        | some (ds, []) => some (digitsToNat ds : ℤ)
        | _ => none
    else none

/-- Parse an unsigned numeric float literal (mantissa plus optional
exponent), requiring the whole input to be consumed.  The result `(n, e)`
denotes the value `n * 10 ^ e` (the mantissa `m / 10 ^ k` with exponent `x`
is `m * 10 ^ (x - k)`). -/
def parseNumericMagnitude (cs : List Char) : Option (ℕ × ℤ) :=
  match parseMantissa cs with
  | some (n, k, rest) =>
    match parseExpPart rest with
    | some x => some (n, x - (k : ℤ))
    | none => none
  | none => none

/-- Parse the part of a float literal after an optional sign: `inf`,
`infinity` and `nan` (case-insensitive) or a numeric literal. -/
def parseUnsignedPyFloat (neg : Bool) (cs : List Char) : Option PyFloat :=
  let low := cs.map pyLowerChar
  if low = "inf".data ∨ low = "infinity".data then
    some (if neg then PyFloat.ninf else PyFloat.inf)
  else if low = "nan".data then
    some PyFloat.nan
  else
    match parseNumericMagnitude cs with
    | some p => some (mkDecimal (if neg then -(p.1 : ℤ) else (p.1 : ℤ)) p.2)
    | none => none

/-- Python `float(s)`: strip whitespace, optional sign, then a float
literal; `none` models the `ValueError` of an unparsable string. -/
def pyFloatOfString (s : String) : Option PyFloat :=
  match pyStripList s.data with
  | '+' :: r => parseUnsignedPyFloat false r
  | '-' :: r => parseUnsignedPyFloat true r
  | r => parseUnsignedPyFloat false r

/-- Python `int(s)` in base 10: strip whitespace, optional sign, then a
digit group consuming the whole rest; `none` models `ValueError`. -/
def pyIntOfString (s : String) : Option ℤ :=
  let core : List Char → Option ℤ := fun cs =>
    match parseDigitGroup cs with
    | some (ds, []) => some (digitsToNat ds : ℤ)
    | _ => none
  match pyStripList s.data with
  | '+' :: r => core r
  | '-' :: r => (core r).map (fun n => -n)
  | r => core r

/-- The environment: a read-only name→value lookup, `none` when unset. -/
def Env : Type := String → Option String

/-- The tuple tested by `_env_bool`: `("1", "true", "yes", "on")`. -/
def truthyStrings : List String := ["1", "true", "yes", "on"]

/-- `_env_bool(name, default)`: default when the variable is unset,
otherwise membership of the stripped, lowercased value in the truthy set. -/
def env_bool (env : Env) (name : String) (default : Bool) : Bool :=
  match env name with
  | none => default
  | some value => decide (pyLower (pyStrip value) ∈ truthyStrings)

/-- The `WebhookConfig` dataclass. -/
structure WebhookConfig where
  enabled : Bool
  url : String
  timeout_sec : PyFloat
  mode : String
  sample_every : ℤ
  include_metrics : Bool
deriving DecidableEq, Repr

/-- Line 33: `enabled = _env_bool("LIVE_VLM_WEBHOOK_ENABLED", False)`. -/
def raw_enabled (env : Env) : Bool :=
  env_bool env "LIVE_VLM_WEBHOOK_ENABLED" false

/-- Line 34: `url = os.getenv("LIVE_VLM_WEBHOOK_URL", "").strip()`. -/
def resolved_url (env : Env) : String :=
  pyStrip ((env "LIVE_VLM_WEBHOOK_URL").getD "")

/-- Line 35: `timeout_raw = os.getenv("LIVE_VLM_WEBHOOK_TIMEOUT_SEC", "2.0")`. -/
def timeout_raw (env : Env) : String :=
  (env "LIVE_VLM_WEBHOOK_TIMEOUT_SEC").getD "2.0"

/-- Line 36: `mode = os.getenv("LIVE_VLM_WEBHOOK_MODE", "both").strip().lower() or "both"`
(the `or` replaces an empty — falsy — string by `"both"`). -/
def raw_mode (env : Env) : String :=
  let m := pyLower (pyStrip ((env "LIVE_VLM_WEBHOOK_MODE").getD "both"))
  if m = "" then "both" else m

/-- Line 37: `sample_raw = os.getenv("LIVE_VLM_WEBHOOK_SAMPLE_EVERY", "1")`. -/
def sample_raw (env : Env) : String :=
  (env "LIVE_VLM_WEBHOOK_SAMPLE_EVERY").getD "1"

/-- Line 38: `include_metrics = _env_bool("LIVE_VLM_WEBHOOK_INCLUDE_METRICS", True)`. -/
def resolved_include_metrics (env : Env) : Bool :=
  env_bool env "LIVE_VLM_WEBHOOK_INCLUDE_METRICS" true

/-- Lines 40-48: `timeout_sec = float(timeout_raw)`, re-raising `ValueError`
when `timeout_sec <= 0`; the handler substitutes `2.0`.  Note the guard is
`<= 0`, which NaN fails, so a NaN parse is kept. -/
def resolved_timeout (env : Env) : PyFloat :=
  match pyFloatOfString (timeout_raw env) with
  | none => PyFloat.finite 2 0
  | some t => if pyFloatLeZero t = true then PyFloat.finite 2 0 else t

/-- The warning the timeout handler logs, with the raw value interpolated. -/
def timeout_warn (env : Env) : List String :=
  match pyFloatOfString (timeout_raw env) with
  | none => ["Invalid LIVE_VLM_WEBHOOK_TIMEOUT_SEC=" ++ timeout_raw env ++ ", using default 2.0"]
  | some t =>
    if pyFloatLeZero t = true then
      ["Invalid LIVE_VLM_WEBHOOK_TIMEOUT_SEC=" ++ timeout_raw env ++ ", using default 2.0"]
    else []

/-- Lines 50-58: `sample_every = int(sample_raw)`, re-raising `ValueError`
when `sample_every < 1`; the handler substitutes `1`. -/
def resolved_sample_every (env : Env) : ℤ :=
  match pyIntOfString (sample_raw env) with
  | none => 1
  | some n => if n < 1 then 1 else n

/-- The warning the sample_every handler logs. -/
def sample_warn (env : Env) : List String :=
  match pyIntOfString (sample_raw env) with
  | none => ["Invalid LIVE_VLM_WEBHOOK_SAMPLE_EVERY=" ++ sample_raw env ++ ", using default 1"]
  | some n =>
    if n < 1 then
      ["Invalid LIVE_VLM_WEBHOOK_SAMPLE_EVERY=" ++ sample_raw env ++ ", using default 1"]
    else []

/-- Lines 60-62: `if mode not in ("single", "multi", "both"): mode = "both"`. -/
def resolved_mode (env : Env) : String :=
  if raw_mode env = "single" ∨ raw_mode env = "multi" ∨ raw_mode env = "both" then
    raw_mode env
  else "both"

/-- The warning logged for an invalid mode (the processed value is logged). -/
def mode_warn (env : Env) : List String :=
  if raw_mode env = "single" ∨ raw_mode env = "multi" ∨ raw_mode env = "both" then []
  else ["Invalid LIVE_VLM_WEBHOOK_MODE=" ++ raw_mode env ++ ", using default \x27both\x27"]

/-- Lines 64-67: `if enabled and not url: enabled = False`. -/
def resolved_enabled (env : Env) : Bool :=
  if raw_enabled env = true ∧ resolved_url env = "" then false else raw_enabled env

/-- The warning logged when `enabled` is forced off for lack of a URL. -/
def enabled_warn (env : Env) : List String :=
  if raw_enabled env = true ∧ resolved_url env = "" then
    ["LIVE_VLM_WEBHOOK_ENABLED is true but LIVE_VLM_WEBHOOK_URL is empty"]
  else []

/-- `load_webhook_config()`: the returned record, paired with the warnings
logged along the way (in emission order). -/
def load_webhook_config (env : Env) : WebhookConfig × List String :=
  (⟨resolved_enabled env, resolved_url env, resolved_timeout env,
    resolved_mode env, resolved_sample_every env, resolved_include_metrics env⟩,
   timeout_warn env ++ sample_warn env ++ mode_warn env ++ enabled_warn env)

/-- The six environment variables the loader consumes. -/
def webhookEnvNames : List String :=
  ["LIVE_VLM_WEBHOOK_ENABLED", "LIVE_VLM_WEBHOOK_URL",
   "LIVE_VLM_WEBHOOK_TIMEOUT_SEC", "LIVE_VLM_WEBHOOK_MODE",
   "LIVE_VLM_WEBHOOK_SAMPLE_EVERY", "LIVE_VLM_WEBHOOK_INCLUDE_METRICS"]

/-- An environment with a single variable set. -/
def envWith (name v : String) : Env :=
  fun n => if n = name then some v else none

/-- An environment with two variables set. -/
def envWith2 (n1 v1 n2 v2 : String) : Env :=
  fun n => if n = n1 then some v1 else if n = n2 then some v2 else none

/-- The empty environment: every variable unset. -/
def envEmpty : Env := fun _ => none

/-- An environment that differs from `envEmpty` only on a variable the
loader never reads. -/
def envOther : Env :=
  fun n => if n = "HOME" then some "/root" else none

example : pyFloatOfString "5.5" = some (PyFloat.finite 55 (-1)) := by decide
example : pyFloatOfString "nan" = some PyFloat.nan := by decide
example : pyFloatOfString "abc" = none := by decide
example : pyIntOfString " -3 " = some (-3) := by decide
example : pyIntOfString "x" = none := by decide
example : pyLower (pyStrip " TRUE ") = "true" := by decide

/-- The resolved sample rate is never below one: the parse either fails
(default 1) or is clamped by the `< 1` re-raise. -/
lemma resolved_sample_every_ge_one (env : Env) : 1 ≤ resolved_sample_every env := by
  unfold resolved_sample_every
  cases hp : pyIntOfString (sample_raw env) with
  | none => exact le_refl 1
  | some n =>
    by_cases hn : n < 1
    · simp [hn]
    · simp only [if_neg hn]
      omega

/-- The resolved mode is always one of the three accepted values. -/
lemma resolved_mode_valid (env : Env) :
    resolved_mode env = "single" ∨ resolved_mode env = "multi" ∨ resolved_mode env = "both" := by
  unfold resolved_mode
  by_cases hm : raw_mode env = "single" ∨ raw_mode env = "multi" ∨ raw_mode env = "both"
  · rw [if_pos hm]; exact hm
  · rw [if_neg hm]; right; right; rfl

/-- The resolved timeout is positive unless the raw value parsed to NaN
(which the `<= 0` guard does not catch). -/
lemma resolved_timeout_pos_or_nan (env : Env) :
    pyFloatGtZero (resolved_timeout env) = true ∨ resolved_timeout env = PyFloat.nan := by
  unfold resolved_timeout
  cases hp : pyFloatOfString (timeout_raw env) with
  | none => left; decide
  | some t =>
    cases t with
    | nan => right; rfl
    | inf => left; decide
    | ninf => left; decide
    | finite n e =>
      by_cases hn : n ≤ 0
      · left; simp [pyFloatLeZero, pyFloatGtZero, hn]
      · left
        simp only [pyFloatLeZero, decide_eq_true_eq, if_neg hn, pyFloatGtZero]
        exact lt_of_not_le hn

/-- The cross-field repair: a configuration that comes out enabled has a
non-empty URL. -/
lemma resolved_enabled_imp_url (env : Env) (h : resolved_enabled env = true) :
    resolved_url env ≠ "" := by
  unfold resolved_enabled at h
  by_cases hc : raw_enabled env = true ∧ resolved_url env = ""
  · rw [if_pos hc] at h
    exact absurd h (by decide)
  · intro hu
    rw [if_neg hc] at h
    exact hc ⟨h, hu⟩

/-- C1: in every record returned by the loader, `enabled = true` implies
`url ≠ ""`; and whenever the parsed enabled flag is true while the resolved
URL is empty, the result has `enabled = false` and the corresponding
warning is logged. -/
theorem webhook_enabled_implies_url_nonempty (env : Env) :
    ((load_webhook_config env).1.enabled = true → (load_webhook_config env).1.url ≠ "") ∧
    (raw_enabled env = true ∧ resolved_url env = "" →
      (load_webhook_config env).1.enabled = false ∧
      "LIVE_VLM_WEBHOOK_ENABLED is true but LIVE_VLM_WEBHOOK_URL is empty" ∈
        (load_webhook_config env).2) := by
  constructor
  · exact fun h => resolved_enabled_imp_url env h
  · rintro ⟨h1, h2⟩
    constructor
    · show resolved_enabled env = false
      unfold resolved_enabled
      rw [if_pos ⟨h1, h2⟩]
    · show _ ∈ timeout_warn env ++ sample_warn env ++ mode_warn env ++ enabled_warn env
      have hw : enabled_warn env =
          ["LIVE_VLM_WEBHOOK_ENABLED is true but LIVE_VLM_WEBHOOK_URL is empty"] := by
        unfold enabled_warn
        rw [if_pos ⟨h1, h2⟩]
      simp [hw]

/-- Witness for C1 at concrete environments: one where the loader comes out
enabled (so the URL is non-empty), one where enabled is forced off. -/
theorem webhook_enabled_url_witness :
    (load_webhook_config
        (envWith2 "LIVE_VLM_WEBHOOK_ENABLED" "true" "LIVE_VLM_WEBHOOK_URL" " https://x ")).1.url ≠ "" ∧
    ((load_webhook_config (envWith "LIVE_VLM_WEBHOOK_ENABLED" "1")).1.enabled = false ∧
      "LIVE_VLM_WEBHOOK_ENABLED is true but LIVE_VLM_WEBHOOK_URL is empty" ∈
        (load_webhook_config (envWith "LIVE_VLM_WEBHOOK_ENABLED" "1")).2) :=
  ⟨(webhook_enabled_implies_url_nonempty _).1 (by decide),
   (webhook_enabled_implies_url_nonempty _).2 ⟨by decide, by decide⟩⟩

/-- C2 (counterexample): the claim "timeout_sec is strictly greater than 0
for every value of LIVE_VLM_WEBHOOK_TIMEOUT_SEC" fails at the value "nan":
Python's `float("nan")` succeeds and NaN fails the `<= 0` guard (NaN is
incomparable), so the loader keeps a timeout that is not greater than 0. -/
theorem timeout_gt_zero_fails_on_nan :
    (load_webhook_config (envWith "LIVE_VLM_WEBHOOK_TIMEOUT_SEC" "nan")).1.timeout_sec =
      PyFloat.nan ∧
    pyFloatGtZero
      ((load_webhook_config (envWith "LIVE_VLM_WEBHOOK_TIMEOUT_SEC" "nan")).1.timeout_sec) =
      false := by
  decide

/-- C2 (amended): for every value of LIVE_VLM_WEBHOOK_TIMEOUT_SEC the
resulting timeout is strictly positive or NaN; a parse failure or a parsed
value ≤ 0 falls back to 2.0 with a logged warning — "0", "-1" and "abc"
yield 2.0, while "5.5" yields 5.5 (the decimal 55·10⁻¹, i.e. 11/2). -/
theorem timeout_pos_or_nan :
    (∀ env : Env,
      pyFloatGtZero ((load_webhook_config env).1.timeout_sec) = true ∨
      (load_webhook_config env).1.timeout_sec = PyFloat.nan) ∧
    (load_webhook_config (envWith "LIVE_VLM_WEBHOOK_TIMEOUT_SEC" "0")).1.timeout_sec =
      PyFloat.finite 2 0 ∧
    (load_webhook_config (envWith "LIVE_VLM_WEBHOOK_TIMEOUT_SEC" "-1")).1.timeout_sec =
      PyFloat.finite 2 0 ∧
    (load_webhook_config (envWith "LIVE_VLM_WEBHOOK_TIMEOUT_SEC" "abc")).1.timeout_sec =
      PyFloat.finite 2 0 ∧
    (load_webhook_config (envWith "LIVE_VLM_WEBHOOK_TIMEOUT_SEC" "5.5")).1.timeout_sec =
      PyFloat.finite 55 (-1) ∧
    decimalToRat 55 (-1) = 11 / 2 ∧
    "Invalid LIVE_VLM_WEBHOOK_TIMEOUT_SEC=0, using default 2.0" ∈
      (load_webhook_config (envWith "LIVE_VLM_WEBHOOK_TIMEOUT_SEC" "0")).2 :=
  ⟨fun env => resolved_timeout_pos_or_nan env, by decide, by decide, by decide, by decide,
   by norm_num [decimalToRat], by decide⟩

/-- C3: the loader is a total function of the environment state — for every
environment it returns a record (plus the logged warnings), with malformed
numeric and enum inputs already replaced by their defaults. -/
theorem load_webhook_config_total (env : Env) :
    ∃ c : WebhookConfig, ∃ warns : List String,
      load_webhook_config env = (c, warns) ∧ 1 ≤ c.sample_every ∧
        (c.mode = "single" ∨ c.mode = "multi" ∨ c.mode = "both") :=
  ⟨_, _, rfl, resolved_sample_every_ge_one env, resolved_mode_valid env⟩

/-- C4: with every variable unset the loader returns exactly the default
record — disabled, empty URL, timeout 2.0, mode "both", sample 1, metrics
on — and logs nothing. -/
theorem load_webhook_config_defaults :
    load_webhook_config envEmpty =
      (⟨false, "", PyFloat.finite 2 0, "both", 1, true⟩, []) ∧
    decimalToRat 2 0 = 2 :=
  ⟨by decide, by norm_num [decimalToRat]⟩

/-- C5: boolean environment parsing is true exactly when the trimmed,
lowercased set value is one of "1", "true", "yes", "on" (so "TRUE" and "On"
parse to true, "off" does not); an unset variable yields the default —
false for enabled, true for include_metrics. -/
theorem env_bool_truthy_spec :
    (∀ (v : String) (d : Bool),
      env_bool (envWith "LIVE_VLM_WEBHOOK_ENABLED" v) "LIVE_VLM_WEBHOOK_ENABLED" d = true ↔
        pyLower (pyStrip v) ∈ truthyStrings) ∧
    (∀ (v : String) (d : Bool),
      env_bool (envWith "LIVE_VLM_WEBHOOK_INCLUDE_METRICS" v)
          "LIVE_VLM_WEBHOOK_INCLUDE_METRICS" d = true ↔
        pyLower (pyStrip v) ∈ truthyStrings) ∧
    (∀ d : Bool, env_bool envEmpty "LIVE_VLM_WEBHOOK_ENABLED" d = d) ∧
    (∀ d : Bool, env_bool envEmpty "LIVE_VLM_WEBHOOK_INCLUDE_METRICS" d = d) ∧
    env_bool (envWith "LIVE_VLM_WEBHOOK_ENABLED" "TRUE") "LIVE_VLM_WEBHOOK_ENABLED" false =
      true ∧
    env_bool (envWith "LIVE_VLM_WEBHOOK_ENABLED" "On") "LIVE_VLM_WEBHOOK_ENABLED" false =
      true ∧
    env_bool (envWith "LIVE_VLM_WEBHOOK_ENABLED" "off") "LIVE_VLM_WEBHOOK_ENABLED" false =
      false ∧
    raw_enabled envEmpty = false ∧ resolved_include_metrics envEmpty = true := by
  refine ⟨fun v d => ?_, fun v d => ?_, fun d => rfl, fun d => rfl,
    by decide, by decide, by decide, by decide, by decide⟩
  · show decide (pyLower (pyStrip v) ∈ truthyStrings) = true ↔ _
    exact decide_eq_true_iff
  · show decide (pyLower (pyStrip v) ∈ truthyStrings) = true ↔ _
    exact decide_eq_true_iff

/-- C6: the mode field is always one of "single", "multi", "both"; the raw
value is trimmed and lowercased ("SINGLE" gives "single"), a value that is
empty after trimming gives "both", and any other value outside the set
gives "both" with a logged warning. -/
theorem mode_always_valid :
    (∀ env : Env,
      (load_webhook_config env).1.mode = "single" ∨
      (load_webhook_config env).1.mode = "multi" ∨
      (load_webhook_config env).1.mode = "both") ∧
    (load_webhook_config (envWith "LIVE_VLM_WEBHOOK_MODE" "SINGLE")).1.mode = "single" ∧
    (load_webhook_config (envWith "LIVE_VLM_WEBHOOK_MODE" "bogus")).1.mode = "both" ∧
    "Invalid LIVE_VLM_WEBHOOK_MODE=bogus, using default \x27both\x27" ∈
      (load_webhook_config (envWith "LIVE_VLM_WEBHOOK_MODE" "bogus")).2 ∧
    (load_webhook_config (envWith "LIVE_VLM_WEBHOOK_MODE" "   ")).1.mode = "both" :=
  ⟨fun env => resolved_mode_valid env, by decide, by decide, by decide, by decide⟩

/-- C7: the sample_every field is always an integer ≥ 1; a parse failure or
a parsed value < 1 falls back to 1 with a logged warning — "0", "-3" and
"x" yield 1, while "7" yields 7. -/
theorem sample_every_at_least_one :
    (∀ env : Env, 1 ≤ (load_webhook_config env).1.sample_every) ∧
    (load_webhook_config (envWith "LIVE_VLM_WEBHOOK_SAMPLE_EVERY" "0")).1.sample_every = 1 ∧
    (load_webhook_config (envWith "LIVE_VLM_WEBHOOK_SAMPLE_EVERY" "-3")).1.sample_every = 1 ∧
    (load_webhook_config (envWith "LIVE_VLM_WEBHOOK_SAMPLE_EVERY" "x")).1.sample_every = 1 ∧
    (load_webhook_config (envWith "LIVE_VLM_WEBHOOK_SAMPLE_EVERY" "7")).1.sample_every = 7 ∧
    "Invalid LIVE_VLM_WEBHOOK_SAMPLE_EVERY=0, using default 1" ∈
      (load_webhook_config (envWith "LIVE_VLM_WEBHOOK_SAMPLE_EVERY" "0")).2 :=
  ⟨fun env => resolved_sample_every_ge_one env, by decide, by decide, by decide, by decide,
   by decide⟩

/-- C8: the url field is exactly the value of LIVE_VLM_WEBHOOK_URL with
surrounding whitespace trimmed (empty when unset) and no other validation;
with enabled set and url " https://x " the result is enabled with
url "https://x". -/
theorem url_trimmed_untouched :
    (∀ env : Env,
      (load_webhook_config env).1.url = pyStrip ((env "LIVE_VLM_WEBHOOK_URL").getD "")) ∧
    (load_webhook_config
        (envWith2 "LIVE_VLM_WEBHOOK_ENABLED" "true" "LIVE_VLM_WEBHOOK_URL"
          " https://x ")).1.enabled = true ∧
    (load_webhook_config
        (envWith2 "LIVE_VLM_WEBHOOK_ENABLED" "true" "LIVE_VLM_WEBHOOK_URL"
          " https://x ")).1.url = "https://x" :=
  ⟨fun env => rfl, by decide, by decide⟩

/-- C9: setting LIVE_VLM_WEBHOOK_INCLUDE_METRICS to the empty string or to
whitespace yields include_metrics = false — the default true applies only
when the variable is entirely unset, and any set value outside the truthy
set yields false. -/
theorem include_metrics_set_empty_false :
    ((load_webhook_config
        (envWith "LIVE_VLM_WEBHOOK_INCLUDE_METRICS" "")).1.include_metrics = false) ∧
    ((load_webhook_config
        (envWith "LIVE_VLM_WEBHOOK_INCLUDE_METRICS" "   ")).1.include_metrics = false) ∧
    (∀ v : String, pyLower (pyStrip v) ∉ truthyStrings →
      (load_webhook_config
        (envWith "LIVE_VLM_WEBHOOK_INCLUDE_METRICS" v)).1.include_metrics = false) ∧
    ((load_webhook_config envEmpty).1.include_metrics = true) := by
  refine ⟨by decide, by decide, fun v hv => ?_, by decide⟩
  show decide (pyLower (pyStrip v) ∈ truthyStrings) = false
  exact decide_eq_false hv

/-- Witness for C9: at the concrete non-truthy value "maybe" the theorem
yields include_metrics = false. -/
theorem include_metrics_witness :
    (load_webhook_config
      (envWith "LIVE_VLM_WEBHOOK_INCLUDE_METRICS" "maybe")).1.include_metrics = false :=
  include_metrics_set_empty_false.2.2.1 "maybe" (by decide)

/-- C10: the loader reads nothing beyond the six named variables — two
environments that agree on those six produce identical results (record and
warnings alike). -/
theorem load_depends_only_on_webhook_vars (env1 env2 : Env)
    (h : ∀ name, name ∈ webhookEnvNames → env1 name = env2 name) :
    load_webhook_config env1 = load_webhook_config env2 := by
  have hE : env1 "LIVE_VLM_WEBHOOK_ENABLED" = env2 "LIVE_VLM_WEBHOOK_ENABLED" :=
    h _ (by simp [webhookEnvNames])
  have hU : env1 "LIVE_VLM_WEBHOOK_URL" = env2 "LIVE_VLM_WEBHOOK_URL" :=
    h _ (by simp [webhookEnvNames])
  have hT : env1 "LIVE_VLM_WEBHOOK_TIMEOUT_SEC" = env2 "LIVE_VLM_WEBHOOK_TIMEOUT_SEC" :=
    h _ (by simp [webhookEnvNames])
  have hM : env1 "LIVE_VLM_WEBHOOK_MODE" = env2 "LIVE_VLM_WEBHOOK_MODE" :=
    h _ (by simp [webhookEnvNames])
  have hS : env1 "LIVE_VLM_WEBHOOK_SAMPLE_EVERY" = env2 "LIVE_VLM_WEBHOOK_SAMPLE_EVERY" :=
    h _ (by simp [webhookEnvNames])
  have hI :
      env1 "LIVE_VLM_WEBHOOK_INCLUDE_METRICS" = env2 "LIVE_VLM_WEBHOOK_INCLUDE_METRICS" :=
    h _ (by simp [webhookEnvNames])
  unfold load_webhook_config resolved_enabled enabled_warn raw_enabled resolved_url
    resolved_timeout timeout_warn timeout_raw resolved_mode mode_warn raw_mode
    resolved_sample_every sample_warn sample_raw resolved_include_metrics env_bool
  rw [hE, hU, hT, hM, hS, hI]

/-- Witness for C10: the empty environment and one that sets only an
unrelated variable load to the same configuration. -/
theorem load_noninterference_witness :
    load_webhook_config envEmpty = load_webhook_config envOther :=
  load_depends_only_on_webhook_vars envEmpty envOther
    (by
      intro name hname
      simp only [webhookEnvNames, List.mem_cons, List.mem_singleton,
        List.not_mem_nil, or_false] at hname
      rcases hname with rfl | rfl | rfl | rfl | rfl | rfl <;> decide)
